import Mathlib

/-!
Verification development for the UI-state extraction engine of Windows-MCP
(`src/windows_mcp/tree/service.py`, `src/windows_mcp/tree/config.py`).

The engine is shallowly embedded: every provider read that the Python code
performs without a `try`/`except` is modelled as a total field read or as an
`Option` whose `none` value makes the surrounding computation return `none`
(an uncaught exception that fails the window job); every read wrapped in
`try`/`except` is folded to its fail-closed default exactly where the code
does so.  The floating-point scalars of the source (clock readings in
seconds, scroll percentages, pixel midpoints) are embedded as integers in
a fixed resolution — every operation performed on them (comparison,
addition, subtraction, `max`/`min`) is order-ring algebra that does not
depend on the carrier — and the literal `0.8` viewport factor is embedded
as the exact ratio 4/5.  Types that live in the
repository's `views.py`/`utils.py` (absent from the sources provided) are
modelled from the spec and marked as such in their doc comments.
-/

namespace WindowsMCP

/-- A provider rectangle (`uiautomation.Rect`): absolute screen pixels,
with `width`/`height` computed as in the library (`right-left`,
`bottom-top`) and `isempty` true when either is nonpositive. -/
structure Rect where
  left : Int
  top : Int
  right : Int
  bottom : Int
deriving DecidableEq, Repr

def Rect.width (r : Rect) : Int := r.right - r.left

def Rect.height (r : Rect) : Int := r.bottom - r.top

def Rect.isempty (r : Rect) : Bool := decide (r.width ≤ 0 ∨ r.height ≤ 0)

/-- Modelled from the spec: `BoundingBox` of `views.py` (absent from the
sources) — left/top/right/bottom/width/height in absolute screen pixels.
All construction sites in `service.py` pass every field explicitly. -/
structure BoundingBox where
  left : Int
  top : Int
  right : Int
  bottom : Int
  width : Int
  height : Int
deriving DecidableEq, Repr

def BoundingBox.toRect (b : BoundingBox) : Rect :=
  ⟨b.left, b.top, b.right, b.bottom⟩

def zeroBox : BoundingBox := ⟨0, 0, 0, 0, 0, 0⟩

/-- Modelled from the spec: `Center` of `views.py` — a point in screen
space; the spec (§4.5) makes a center the midpoint of a box. -/
structure Center where
  x : Int
  y : Int
deriving DecidableEq, Repr

/-- Modelled from the spec: `BoundingBox.get_center` of `views.py` —
"Center = midpoint of the (possibly degenerate) box" (§4.5), in integer
pixel coordinates. -/
def BoundingBox.get_center (b : BoundingBox) : Center :=
  ⟨(b.left + b.right) / 2, (b.top + b.bottom) / 2⟩

/-- Modelled from the spec: `DOMInfo` of `views.py` — scroll state of the
designated browser viewport root (§3). -/
structure DOMInfo where
  horizontal_scrollable : Bool
  horizontal_scroll_percent : Int
  vertical_scrollable : Bool
  vertical_scroll_percent : Int
deriving DecidableEq, Repr

/-- The scroll pattern object returned by `GetPattern(PatternId.ScrollPattern)`. -/
structure ScrollPatternData where
  horizontallyScrollable : Bool
  horizontalScrollPercent : Int
  verticallyScrollable : Bool
  verticalScrollPercent : Int
deriving DecidableEq, Repr

/-- The legacy accessible pattern (`GetLegacyIAccessiblePattern`):
`DefaultAction` string and optional `Value` (Python `None` ⇒ `none`). -/
structure LegacyPattern where
  defaultAction : String
  value : Option String
deriving DecidableEq, Repr

/-- A provider node (`uiautomation.Control`).  Fields that the code only
ever reads inside a `try` block, or whose read would raise an uncaught
exception, are `Option`-valued with `none` meaning "the provider call
raised".  `scrollPattern = none` means `GetPattern` itself raised;
`some none` means it returned Python `None` (pattern unsupported).
`children` is the list produced by `GetChildren`; `GetFirstChildControl`
is its head.  `isBrowserApp` models `desktop.is_app_browser(node)`. -/
inductive Control where
  | mk
    (name : String)
    (controlTypeName : String)
    (className : String)
    (localizedControlType : String)
    (automationId : String)
    (acceleratorKey : String)
    (isOffscreen : Bool)
    (isControlElement : Bool)
    (hasKeyboardFocus : Bool)
    (boundingRectangle : Rect)
    (isEnabled : Option Bool)
    (isKeyboardFocusableRaw : Option Bool)
    (legacy : Option LegacyPattern)
    (scrollPattern : Option (Option ScrollPatternData))
    (windowPattern : Option Bool)
    (isWindowControl : Bool)
    (isImageControl : Bool)
    (isBrowserApp : Option Bool)
    (children : List Control)

def Control.name : Control → String
  | .mk v _ _ _ _ _ _ _ _ _ _ _ _ _ _ _ _ _ _ => v

def Control.controlTypeName : Control → String
  | .mk _ v _ _ _ _ _ _ _ _ _ _ _ _ _ _ _ _ _ => v

def Control.className : Control → String
  | .mk _ _ v _ _ _ _ _ _ _ _ _ _ _ _ _ _ _ _ => v

def Control.localizedControlType : Control → String
  | .mk _ _ _ v _ _ _ _ _ _ _ _ _ _ _ _ _ _ _ => v

def Control.automationId : Control → String
  | .mk _ _ _ _ v _ _ _ _ _ _ _ _ _ _ _ _ _ _ => v

def Control.acceleratorKey : Control → String
  | .mk _ _ _ _ _ v _ _ _ _ _ _ _ _ _ _ _ _ _ => v

def Control.isOffscreen : Control → Bool
  | .mk _ _ _ _ _ _ v _ _ _ _ _ _ _ _ _ _ _ _ => v

def Control.isControlElement : Control → Bool
  | .mk _ _ _ _ _ _ _ v _ _ _ _ _ _ _ _ _ _ _ => v

def Control.hasKeyboardFocus : Control → Bool
  | .mk _ _ _ _ _ _ _ _ v _ _ _ _ _ _ _ _ _ _ => v

def Control.boundingRectangle : Control → Rect
  | .mk _ _ _ _ _ _ _ _ _ v _ _ _ _ _ _ _ _ _ => v

def Control.isEnabled : Control → Option Bool
  | .mk _ _ _ _ _ _ _ _ _ _ v _ _ _ _ _ _ _ _ => v

def Control.isKeyboardFocusableRaw : Control → Option Bool
  | .mk _ _ _ _ _ _ _ _ _ _ _ v _ _ _ _ _ _ _ => v

def Control.legacy : Control → Option LegacyPattern
  | .mk _ _ _ _ _ _ _ _ _ _ _ _ v _ _ _ _ _ _ => v

def Control.scrollPattern : Control → Option (Option ScrollPatternData)
  | .mk _ _ _ _ _ _ _ _ _ _ _ _ _ v _ _ _ _ _ => v

def Control.windowPattern : Control → Option Bool
  | .mk _ _ _ _ _ _ _ _ _ _ _ _ _ _ v _ _ _ _ => v

def Control.isWindowControl : Control → Bool
  | .mk _ _ _ _ _ _ _ _ _ _ _ _ _ _ _ v _ _ _ => v

def Control.isImageControl : Control → Bool
  | .mk _ _ _ _ _ _ _ _ _ _ _ _ _ _ _ _ v _ _ => v

def Control.isBrowserApp : Control → Option Bool
  | .mk _ _ _ _ _ _ _ _ _ _ _ _ _ _ _ _ _ v _ => v

def Control.children : Control → List Control
  | .mk _ _ _ _ _ _ _ _ _ _ _ _ _ _ _ _ _ _ v => v

/-- `INTERACTIVE_CONTROL_TYPE_NAMES` from `config.py`. -/
def INTERACTIVE_CONTROL_TYPE_NAMES : List String :=
  ["ButtonControl", "ListItemControl", "MenuItemControl", "EditControl",
   "CheckBoxControl", "RadioButtonControl", "ComboBoxControl",
   "HyperlinkControl", "SplitButtonControl", "TabItemControl",
   "TreeItemControl", "DataItemControl", "HeaderItemControl",
   "TextBoxControl", "SpinnerControl", "ScrollBarControl"]

/-- `DOCUMENT_CONTROL_TYPE_NAMES` from `config.py`. -/
def DOCUMENT_CONTROL_TYPE_NAMES : List String := ["DocumentControl"]

/-- `INFORMATIVE_CONTROL_TYPE_NAMES` from `config.py`. -/
def INFORMATIVE_CONTROL_TYPE_NAMES : List String :=
  ["TextControl", "ImageControl", "StatusBarControl"]

/-- `DEFAULT_ACTIONS` from `config.py`. -/
def DEFAULT_ACTIONS : List String :=
  ["Click", "Press", "Jump", "Check", "Uncheck", "Double Click"]

/-- `THREAD_MAX_RETRIES` from `config.py`. -/
def THREAD_MAX_RETRIES : Nat := 3

/-- ASCII model of Python `str.title()`: a cased character following a
non-cased character is uppercased, every other cased character is
lowercased. -/
def pyTitleAux : List Char → Bool → List Char
  | [], _ => []
  | c :: cs, prevAlpha =>
    (if c.isAlpha then (if prevAlpha then c.toLower else c.toUpper) else c)
      :: pyTitleAux cs c.isAlpha

def pyTitle (s : String) : String := ⟨pyTitleAux s.data false⟩

/-- ASCII model of Python `str.capitalize()`: first character uppercased,
the rest lowercased. -/
def pyCapitalize (s : String) : String :=
  match s.data with
  | [] => ""
  | c :: cs => ⟨c.toUpper :: cs.map Char.toLower⟩

/-- Python `a or b` on strings: the first operand unless it is empty. -/
def pyOr (a b : String) : String := if a = "" then b else a

/-- ASCII model of Python `str.strip()`: drop whitespace from both ends. -/
def pyStrip (s : String) : String :=
  ⟨(((s.data.dropWhile Char.isWhitespace).reverse.dropWhile Char.isWhitespace).reverse)⟩

/-- The literal `"''"` used as the last resort of a scrollable node's name. -/
def twoQuotes : String := "\x27\x27"

/-- `is_element_visible` (service.py): non-empty box, positive area, a
control element, and (not off-screen or an edit control).  Every read here
is non-raising, so the function is total. -/
def is_element_visible (node : Control) (threshold : Int := 0) : Bool :=
  let is_control := node.isControlElement
  let box := node.boundingRectangle
  if box.isempty then false
  else
    let area := box.width * box.height
    let is_offscreen := (!node.isOffscreen) || decide (node.controlTypeName ∈ ["EditControl"])
    decide (area > threshold) && is_offscreen && is_control

/-- `is_element_enabled`: the provider's enabled flag, an error reading it
(`isEnabled = none`) is treated as `false`. -/
def is_element_enabled (node : Control) : Bool :=
  node.isEnabled.getD false

/-- Fallible core of `is_default_action`: reads the legacy pattern (which
may raise, giving `none`) and checks the title-cased default action. -/
def is_default_actionCore (node : Control) : Option Bool :=
  node.legacy.map (fun lp => decide (pyTitle lp.defaultAction ∈ DEFAULT_ACTIONS))

/-- Fallible core of `is_element_image`: an image control that is either a
"graphic" or (reading the raw focusable flag, which may raise) not
keyboard-focusable.  Python's `or` short-circuits, so the raw flag is only
read when the localized type differs from "graphic". -/
def is_element_imageCore (node : Control) : Option Bool :=
  if node.isImageControl then
    if node.localizedControlType = "graphic" then some true
    else node.isKeyboardFocusableRaw.map (fun b => !b)
  else some false

/-- `is_keyboard_focusable`: type-based override for edit/button/checkbox/
radio/tab items, otherwise the provider flag; any error ⇒ `false`. -/
def is_keyboard_focusable (node : Control) : Bool :=
  if node.controlTypeName ∈
      ["EditControl", "ButtonControl", "CheckBoxControl", "RadioButtonControl",
       "TabItemControl"] then true
  else node.isKeyboardFocusableRaw.getD false

/-- `is_window_modal`: the window pattern's modal flag; any error ⇒ `false`. -/
def is_window_modal (node : Control) : Bool :=
  node.windowPattern.getD false

/-- Fallible core of `is_element_scrollable`: not an interactive or
informative type, on-screen, with a scroll pattern reporting vertical
scrollability.  `scrollPattern = none` models `GetPattern` raising. -/
def is_element_scrollableCore (node : Control) : Option Bool :=
  if node.controlTypeName ∈ (INTERACTIVE_CONTROL_TYPE_NAMES ++ INFORMATIVE_CONTROL_TYPE_NAMES)
      ∨ node.isOffscreen = true then some false
  else
    match node.scrollPattern with
    | none => none
    | some none => some false
    | some (some sp) => some sp.verticallyScrollable

/-- `is_element_scrollable`: the fallible core with the surrounding
`try`/`except` folding an error to `false`. -/
def is_element_scrollable (node : Control) : Bool :=
  (is_element_scrollableCore node).getD false

/-- Fallible core of `is_element_interactive` (the body of its `try`).
The branch structure follows the source exactly; data/list items in a
browser, focusable images outside one, interactive/document types, and
browser groups. -/
def is_element_interactiveCore (is_browser : Bool) (node : Control) : Option Bool :=
  if is_browser = true ∧ node.controlTypeName ∈ ["DataItemControl", "ListItemControl"]
      ∧ is_keyboard_focusable node = false then
    some false
  else if is_browser = false ∧ node.controlTypeName = "ImageControl"
      ∧ is_keyboard_focusable node = true then
    some true
  else if node.controlTypeName ∈ (INTERACTIVE_CONTROL_TYPE_NAMES ++ DOCUMENT_CONTROL_TYPE_NAMES) then
    match is_element_imageCore node with
    | none => none
    | some img =>
      some (is_element_visible node && is_element_enabled node
            && (!img || is_keyboard_focusable node))
  else if node.controlTypeName = "GroupControl" then
    if is_browser then
      match is_default_actionCore node with
      | none => none
      | some da =>
        some (is_element_visible node && is_element_enabled node
              && (da || is_keyboard_focusable node))
    else some false
  else some false

/-- `is_element_interactive`: the fallible core with the surrounding
`try`/`except` folding an error to `false`. -/
def is_element_interactive (is_browser : Bool) (node : Control) : Bool :=
  (is_element_interactiveCore is_browser node).getD false

/-- Fallible core of `is_element_text` (informative classification). -/
def is_element_textCore (node : Control) : Option Bool :=
  if node.controlTypeName ∈ INFORMATIVE_CONTROL_TYPE_NAMES then
    match is_element_imageCore node with
    | none => none
    | some img =>
      some (is_element_visible node && is_element_enabled node && !img)
  else some false

/-- `is_element_text`: the fallible core with the surrounding
`try`/`except` folding an error to `false`. -/
def is_element_text (node : Control) : Bool :=
  (is_element_textCore node).getD false

/-- `element_has_child_element`: the node's localized type matches and its
first child exists with the given localized type (Python returns `None`,
i.e. falsy, when the outer type differs). -/
def element_has_child_element (node : Control) (control_type child_control_type : String) : Bool :=
  if node.localizedControlType = control_type then
    match node.children.head? with
    | none => false
    | some c => decide (c.localizedControlType = child_control_type)
  else false

/-- Intersection left edge (window ∩ element, clamped to the screen). -/
def iouLeft (screen_box : BoundingBox) (window_box element_box : Rect) : Int :=
  max screen_box.left (max window_box.left element_box.left)

/-- Intersection top edge (window ∩ element, clamped to the screen). -/
def iouTop (screen_box : BoundingBox) (window_box element_box : Rect) : Int :=
  max screen_box.top (max window_box.top element_box.top)

/-- Intersection right edge (window ∩ element, clamped to the screen). -/
def iouRight (screen_box : BoundingBox) (window_box element_box : Rect) : Int :=
  min screen_box.right (min window_box.right element_box.right)

/-- Intersection bottom edge (window ∩ element, clamped to the screen). -/
def iouBottom (screen_box : BoundingBox) (window_box element_box : Rect) : Int :=
  min screen_box.bottom (min window_box.bottom element_box.bottom)

/-- `Tree.iou_bounding_box`: intersection of the element box with the
reference (window/viewport) box, clamped to the screen box; a degenerate
intersection collapses to the all-zero box. -/
def iou_bounding_box (screen_box : BoundingBox) (window_box element_box : Rect) : BoundingBox :=
  if iouRight screen_box window_box element_box > iouLeft screen_box window_box element_box
      ∧ iouBottom screen_box window_box element_box > iouTop screen_box window_box element_box then
    ⟨iouLeft screen_box window_box element_box, iouTop screen_box window_box element_box,
     iouRight screen_box window_box element_box, iouBottom screen_box window_box element_box,
     iouRight screen_box window_box element_box - iouLeft screen_box window_box element_box,
     iouBottom screen_box window_box element_box - iouTop screen_box window_box element_box⟩
  else zeroBox

/-- Element record for an interactive node (`TreeElementNode` of `views.py`;
modelled from the spec §3 and the explicit keyword construction sites in
`service.py`, which set every field). -/
structure TreeElementNode where
  name : String
  control_type : String
  value : Option String
  shortcut : String
  bounding_box : BoundingBox
  xpath : String
  center : Center
  app_name : String
  is_focused : Bool
deriving DecidableEq, Repr

/-- Element record for a scrollable node (`ScrollElementNode` of `views.py`;
modelled from the spec §3 and the construction site in `service.py`). -/
structure ScrollElementNode where
  name : String
  app_name : String
  control_type : String
  bounding_box : BoundingBox
  center : Center
  xpath : String
  horizontal_scrollable : Bool
  horizontal_scroll_percent : Int
  vertical_scrollable : Bool
  vertical_scroll_percent : Int
  is_focused : Bool
deriving DecidableEq, Repr

/-- Element record for an informative node (`TextElementNode` of `views.py`). -/
structure TextElementNode where
  text : String
deriving DecidableEq, Repr

/-- Per-window traversal context: the values `tree_traversal` closes over
(`is_browser`, the window root's rectangle, the resolved app name) plus the
engine's screen box used by `iou_bounding_box`. -/
structure TravCtx where
  screen : BoundingBox
  is_browser : Bool
  window_bounding_box : Rect
  app_name : String
deriving Repr

/-- The traversal's mutable state: the four result buffers plus the fields
`self.dom_bounding_box`/`self.dom_info` of the `Tree` object, which the
document-root branch assigns.  `domWritten` records that this traversal
performed such an assignment (used to model which `Tree` fields the worker
wrote back, since the fields persist across calls). -/
structure TravState where
  interactive_nodes : List TreeElementNode
  dom_interactive_nodes : List TreeElementNode
  scrollable_nodes : List ScrollElementNode
  dom_informative_nodes : List TextElementNode
  dom_bounding_box : Option BoundingBox
  dom_info : Option DOMInfo
  domWritten : Bool
deriving DecidableEq, Repr

/-- Modelled from the spec: `random_point_within_bounding_box` of
`utils.py` (absent from the sources) — "a bounded random sample point
inside 80% of the box" (§4.8).  The random choice is modelled by its
deterministic representative, the box center, which lies inside the 80%
region. -/
def random_point_within_bounding_box (node : Control) : Int × Int :=
  let box := node.boundingRectangle
  ((box.left + box.right) / 2, (box.top + box.bottom) / 2)

/-- The single-child descent of `dom_correction`'s group branch: follow
first children while they exist; abort (`none`, leaving the undo in place)
when a chain node is of an interactive type, out of fuel models the
`except` branch.  The interactivity test is performed only on nodes that
still have a first child, exactly as in the `while` loop. -/
def chainDescend : Nat → Control → Option Control
  | 0, _ => none
  | fuel + 1, n =>
    match n.children.head? with
    | none => some n
    | some c =>
      if n.controlTypeName ∈ INTERACTIVE_CONTROL_TYPE_NAMES then none
      else chainDescend fuel c

/-- `dom_correction` (service.py): runs right after a dom-interactive
append; undoes duplicate row+link entries, collapses focusable text-only
groups, and collapses link-wrapping-heading pairs.  `none` models an
uncaught exception (a raising legacy-pattern read or a missing viewport
box) that fails the whole window job. -/
def dom_correction (fuel : Nat) (ctx : TravCtx) (node : Control) (st : TravState) :
    Option TravState :=
  if element_has_child_element node "list item" "link"
      ∨ element_has_child_element node "item" "link" then
    some { st with dom_interactive_nodes := st.dom_interactive_nodes.dropLast }
  else if node.controlTypeName = "GroupControl" then
    let st1 := { st with dom_interactive_nodes := st.dom_interactive_nodes.dropLast }
    if is_keyboard_focusable node then
      match chainDescend fuel node with
      | none => some st1
      | some leaf =>
        if leaf.controlTypeName ≠ "TextControl" then some st1
        else
          match node.legacy with
          | none => none
          | some lp =>
            match st.dom_bounding_box with
            | none => none
            | some db =>
              let bounding_box :=
                iou_bounding_box ctx.screen db.toRect node.boundingRectangle
              let center := bounding_box.get_center
              some { st1 with dom_interactive_nodes := st1.dom_interactive_nodes ++
                [{ name := pyStrip leaf.name
                   control_type := node.localizedControlType
                   value := lp.value
                   shortcut := node.acceleratorKey
                   bounding_box := bounding_box
                   xpath := ""
                   center := center
                   app_name := ctx.app_name
                   is_focused := node.hasKeyboardFocus }] }
    else some st1
  else if element_has_child_element node "link" "heading" then
    let st1 := { st with dom_interactive_nodes := st.dom_interactive_nodes.dropLast }
    match node.children.head? with
    | none => none
    | some child =>
      match child.legacy with
      | none => none
      | some _ =>
        match st.dom_bounding_box with
        | none => none
        | some db =>
          let bounding_box :=
            iou_bounding_box ctx.screen db.toRect child.boundingRectangle
          let center := bounding_box.get_center
          some { st1 with dom_interactive_nodes := st1.dom_interactive_nodes ++
            [{ name := pyStrip child.name
               control_type := "link"
               value := some (pyStrip child.name)
               shortcut := child.acceleratorKey
               bounding_box := bounding_box
               xpath := ""
               center := center
               app_name := ctx.app_name
               is_focused := child.hasKeyboardFocus }] }
  else some st

/-- The scrollable-append step of `tree_traversal` (runs when
`is_element_scrollable` holds): re-fetches the scroll pattern (raising if
it is unavailable) and appends a `ScrollElementNode` whose bounding box is
the node's **raw** rectangle. -/
def scrollPhase (ctx : TravCtx) (node : Control) (st : TravState) : Option TravState :=
  if is_element_scrollable node then
    match node.scrollPattern with
    | some (some sp) =>
      let box := node.boundingRectangle
      let pt := random_point_within_bounding_box node
      let center : Center := ⟨pt.1, pt.2⟩
      some { st with scrollable_nodes := st.scrollable_nodes ++
        [{ name := pyOr (pyOr (pyOr (pyStrip node.name) node.automationId)
                    (pyCapitalize node.localizedControlType)) twoQuotes
           app_name := ctx.app_name
           control_type := pyTitle node.localizedControlType
           bounding_box :=
             ⟨box.left, box.top, box.right, box.bottom, box.width, box.height⟩
           center := center
           xpath := ""
           horizontal_scrollable := sp.horizontallyScrollable
           horizontal_scroll_percent :=
             if sp.horizontallyScrollable then sp.horizontalScrollPercent else 0
           vertical_scrollable := sp.verticallyScrollable
           vertical_scroll_percent :=
             if sp.verticallyScrollable then sp.verticalScrollPercent else 0
           is_focused := node.hasKeyboardFocus }] }
    | _ => none
  else some st

/-- The interactive/informative classification step of `tree_traversal`:
an interactive node is appended (clipped to the viewport in document mode,
to the window box otherwise, immediately dom-corrected in document mode);
otherwise an informative node contributes its trimmed text. -/
def interactPhase (fuel : Nat) (ctx : TravCtx) (node : Control) (is_dom : Bool)
    (st : TravState) : Option TravState :=
  if is_element_interactive ctx.is_browser node then
    match node.legacy with
    | none => none
    | some lp =>
      let value : Option String := some ((lp.value.map pyStrip).getD "")
      let is_focused := node.hasKeyboardFocus
      let name := pyStrip node.name
      let element_bounding_box := node.boundingRectangle
      if ctx.is_browser = true ∧ is_dom = true then
        match st.dom_bounding_box with
        | none => none
        | some db =>
          let bounding_box := iou_bounding_box ctx.screen db.toRect element_bounding_box
          let center := bounding_box.get_center
          let tree_node : TreeElementNode :=
            { name := name, control_type := pyTitle node.localizedControlType
              value := value, shortcut := node.acceleratorKey
              bounding_box := bounding_box, center := center, xpath := ""
              app_name := ctx.app_name, is_focused := is_focused }
          dom_correction fuel ctx node
            { st with dom_interactive_nodes := st.dom_interactive_nodes ++ [tree_node] }
      else
        let bounding_box :=
          iou_bounding_box ctx.screen ctx.window_bounding_box element_bounding_box
        let center := bounding_box.get_center
        let tree_node : TreeElementNode :=
          { name := name, control_type := pyTitle node.localizedControlType
            value := value, shortcut := node.acceleratorKey
            bounding_box := bounding_box, center := center, xpath := ""
            app_name := ctx.app_name, is_focused := is_focused }
        some { st with interactive_nodes := st.interactive_nodes ++ [tree_node] }
  else if is_element_text node then
    some { st with dom_informative_nodes := st.dom_informative_nodes ++ [⟨pyStrip node.name⟩] }
  else some st

/-- The whole per-node classification of `tree_traversal` (scrollable then
interactive/informative), before the children loop. -/
def classifyPhase (fuel : Nat) (ctx : TravCtx) (node : Control) (is_dom : Bool)
    (st : TravState) : Option TravState :=
  (scrollPhase ctx node st).bind (interactPhase fuel ctx node is_dom)

/-- The buffer-clearing decision taken when the children loop meets a
window-type child: an on-screen child clears the dom-interactive buffer in
document mode when its rectangle's width exceeds 80% (embedded as the
exact ratio 4/5) of the captured viewport width — reading the viewport
when none was captured raises — and clears the interactive buffer in
normal mode when the child reports itself modal; an off-screen child
clears nothing. -/
def windowClear (is_dom : Bool) (st : TravState) (child : Control) : Option TravState :=
  if child.isOffscreen = false then
    if is_dom then
      match st.dom_bounding_box with
      | none => none
      | some db =>
        some (if 5 * child.boundingRectangle.width > 4 * db.width then
                { st with dom_interactive_nodes := [] }
              else st)
    else
      some (if is_window_modal child then { st with interactive_nodes := [] } else st)
  else some st

/-- One iteration of the children loop of `tree_traversal`: entering the
browser's document root captures the viewport box and DOM scroll state and
recurses in document mode; an on-screen window-type child may clear the
accumulated buffers (full-bleed overlay in document mode, modal window in
normal mode) and is recursed into regardless, with the dialog flag set;
any other child is recursed into unchanged. -/
def childStep (rec : TravCtx → Control → Bool → Bool → TravState → Option TravState)
    (ctx : TravCtx) (is_dom is_dialog : Bool) (st : TravState) (child : Control) :
    Option TravState :=
  if ctx.is_browser = true ∧ child.automationId = "RootWebArea" then
    let br := child.boundingRectangle
    let db : BoundingBox := ⟨br.left, br.top, br.right, br.bottom, br.width, br.height⟩
    match child.scrollPattern with
    | some (some sp) =>
      let di : DOMInfo :=
        ⟨sp.horizontallyScrollable,
         if sp.horizontallyScrollable then sp.horizontalScrollPercent else 0,
         sp.verticallyScrollable,
         if sp.verticallyScrollable then sp.verticalScrollPercent else 0⟩
      rec ctx child true is_dialog
        { st with dom_bounding_box := some db, dom_info := some di, domWritten := true }
    | _ => none
  else if child.isWindowControl then
    match windowClear is_dom st child with
    | none => none
    | some st1 => rec ctx child is_dom true st1
  else rec ctx child is_dom is_dialog st

/-- `tree_traversal` (service.py): the skip rule returns without touching
the state (Python `return None`), otherwise the node is classified and the
children are visited — in reverse sibling order for normal subtrees, in
forward order inside a document subtree.  The fuel models Python's bounded
recursion depth; running out is an exception that fails the job. -/
def travNode : Nat → TravCtx → Control → Bool → Bool → TravState → Option TravState
  | 0, _, _, _, _, _ => none
  | fuel + 1, ctx, node, is_dom, is_dialog, st =>
    if node.isOffscreen = true
        ∧ node.controlTypeName ∉ ["GroupControl", "EditControl", "TitleBarControl"]
        ∧ node.className ∉ ["Popup", "Windows.UI.Core.CoreComponentInputSource"] then
      some st
    else
      match classifyPhase fuel ctx node is_dom st with
      | none => none
      | some st1 =>
        let cs := if is_dom then node.children else node.children.reverse
        cs.foldlM (childStep (travNode fuel) ctx is_dom is_dialog) st1

/-- The outcome of one window job: the three returned lists plus the
`Tree.dom_info`/`Tree.dom_bounding_box` values the worker assigned while
running (if it encountered a document root). -/
structure JobResult where
  interactive : List TreeElementNode
  scrollable : List ScrollElementNode
  informative : List TextElementNode
  domUpd : Option (DOMInfo × BoundingBox)
deriving DecidableEq, Repr

/-- `Tree.get_nodes`: resolves the browser flag (an error ⇒ not a
browser), resolves the app name from the window class, runs the traversal
from the window root, and selects the returned lists according to
document mode.  `dom0`/`domBox0` are the `Tree` object's persistent
`dom_info`/`dom_bounding_box` at the moment the job runs. -/
def get_nodes (screen : BoundingBox) (fuel : Nat) (dom0 : Option DOMInfo)
    (domBox0 : Option BoundingBox) (node : Control) (use_dom : Bool) : Option JobResult :=
  let is_browser := node.isBrowserApp.getD false
  let window_bounding_box := node.boundingRectangle
  let app_name :=
    match node.className with
    | "Progman" => "Desktop"
    | "Shell_TrayWnd" => "Taskbar"
    | "Shell_SecondaryTrayWnd" => "Taskbar"
    | "Microsoft.UI.Content.PopupWindowSiteBridge" => "Context Menu"
    | _ => pyStrip node.name
  let ctx : TravCtx := ⟨screen, is_browser, window_bounding_box, app_name⟩
  let st0 : TravState := ⟨[], [], [], [], domBox0, dom0, false⟩
  match travNode fuel ctx node false false st0 with
  | none => none
  | some st =>
    let domUpd : Option (DOMInfo × BoundingBox) :=
      if st.domWritten then
        match st.dom_info, st.dom_bounding_box with
        | some di, some db => some (di, db)
        | _, _ => none
      else none
    if use_dom then
      if is_browser then
        some ⟨st.dom_interactive_nodes, st.scrollable_nodes, st.dom_informative_nodes, domUpd⟩
      else some ⟨[], [], [], domUpd⟩
    else
      some ⟨st.interactive_nodes ++ st.dom_interactive_nodes, st.scrollable_nodes,
            st.dom_informative_nodes, domUpd⟩

/-- The distinct warning messages `get_state`/`get_appwise_nodes` can
record, one constructor per f-string in the source; payloads carry the
interpolated numbers (remaining cooldown seconds, timeout seconds). -/
inductive Warning where
  | uiaDisabled (remaining : Int)
  | rootTimeout (root_timeout_s : Int)
  | rootFailed
  | fallbackFailed
  | joinTimeout (timeout_s : Int)
  | subtreeFailed
deriving DecidableEq, Repr

/-- One observable event of the deadline-bounded join loop in
`get_appwise_nodes`: the outer remaining-budget check failing, the
`as_completed` wait timing out, a job's future returning a result, or a
job's future raising (`budgetLeft` is the value of
`deadline - monotonic() > 0` read at the retry decision). -/
inductive JoinEv where
  | deadlineHit
  | roundTimeout
  | complete (j : Nat) (r : JobResult)
  | fail (j : Nat) (budgetLeft : Bool)
deriving DecidableEq, Repr

/-- State of the join loop: outstanding futures (as the submission indices
of their jobs), the per-job retry counters, the three merged buffers, the
`Tree` object's dom fields as the workers update them, and the partial
flag with its warnings.  The source field `is_partial` is spelled
`isPartial` here. -/
structure JoinState where
  pending : List Nat
  retry : List Nat
  interactive_nodes : List TreeElementNode
  scrollable_nodes : List ScrollElementNode
  dom_informative_nodes : List TextElementNode
  dom_info : Option DOMInfo
  dom_bounding_box : Option BoundingBox
  isPartial : Bool
  warnings : List Warning
deriving DecidableEq, Repr

/-- The state change of one join-loop transition.  A timeout event marks
the result partial with its warning (and, see `joinStop`, breaks the
loop); a completed job is popped and its lists extended onto the shared
buffers; a failed job is resubmitted while its failure count stays below
`THREAD_MAX_RETRIES` and budget remains, otherwise dropped with the
constant generic warning. -/
def joinStep (timeout_s : Int) (s : JoinState) (e : JoinEv) : JoinState :=
  match e with
  | .deadlineHit =>
    { s with isPartial := true, warnings := s.warnings ++ [.joinTimeout timeout_s] }
  | .roundTimeout =>
    { s with isPartial := true, warnings := s.warnings ++ [.joinTimeout timeout_s] }
  | .complete j r =>
    if j ∈ s.pending then
      { s with
          pending := s.pending.erase j
          interactive_nodes := s.interactive_nodes ++ r.interactive
          scrollable_nodes := s.scrollable_nodes ++ r.scrollable
          dom_informative_nodes := s.dom_informative_nodes ++ r.informative
          dom_info := match r.domUpd with
            | some (di, _) => some di
            | none => s.dom_info
          dom_bounding_box := match r.domUpd with
            | some (_, db) => some db
            | none => s.dom_bounding_box }
    else s
  | .fail j b =>
    if j ∈ s.pending then
      let rc := s.retry.getD j 0 + 1
      let s1 := { s with pending := s.pending.erase j, retry := s.retry.set j rc }
      if rc < THREAD_MAX_RETRIES ∧ b = true then
        { s1 with pending := s1.pending ++ [j] }
      else
        { s1 with isPartial := true, warnings := s1.warnings ++ [.subtreeFailed] }
    else s

/-- Whether an event breaks the join loop (`break` on the outer deadline
check or on an `as_completed` timeout). -/
def joinStop : JoinEv → Bool
  | .deadlineHit => true
  | .roundTimeout => true
  | .complete _ _ => false
  | .fail _ _ => false

/-- The join loop itself: process events while futures are outstanding,
stopping on a timeout event; pending futures left over are only
best-effort cancelled, which does not change the result. -/
def joinRun (timeout_s : Int) : JoinState → List JoinEv → JoinState
  | s, [] => s
  | s, e :: es =>
    if s.pending = [] then s
    else if joinStop e then joinStep timeout_s s e
    else joinRun timeout_s (joinStep timeout_s s e) es

/-- `Tree.get_appwise_nodes`: one future per target window, then the join
loop; `dom0`/`domBox0` are the persistent `Tree.dom_info`/
`Tree.dom_bounding_box` when the call starts. -/
def get_appwise_nodes (timeout_s : Int) (numApps : Nat) (dom0 : Option DOMInfo)
    (domBox0 : Option BoundingBox) (evs : List JoinEv) : JoinState :=
  joinRun timeout_s
    ⟨List.range numApps, List.replicate numApps 0, [], [], [], dom0, domBox0, false, []⟩
    evs

/-- A well-formed join schedule: every completion or failure names a job
with an outstanding future, and events only occur while futures are
outstanding. -/
def JoinWF (timeout_s : Int) (s : JoinState) : List JoinEv → Bool
  | [] => true
  | e :: es =>
    if s.pending = [] then false
    else
      match e with
      | .deadlineHit => true
      | .roundTimeout => true
      | .complete j r =>
        decide (j ∈ s.pending) && JoinWF timeout_s (joinStep timeout_s s (.complete j r)) es
      | .fail j b =>
        decide (j ∈ s.pending) && JoinWF timeout_s (joinStep timeout_s s (.fail j b)) es

/-- The interactive elements of a join schedule in the order the loop
processes completions, truncated at the first timeout event: this is the
completion-order concatenation of the successful window results. -/
def completionMerge : List JoinEv → List TreeElementNode
  | [] => []
  | .deadlineHit :: _ => []
  | .roundTimeout :: _ => []
  | .complete _ r :: es => r.interactive ++ completionMerge es
  | .fail _ _ :: es => completionMerge es

/-- An event that does not assign the `Tree` dom fields (its job
encountered no browser document root). -/
def domFreeEv : JoinEv → Prop
  | .complete _ r => r.domUpd = none
  | _ => True

instance : DecidablePred domFreeEv := by
  intro e
  cases e <;> simp [domFreeEv] <;> infer_instance

/-- Per-call snapshot (`TreeState` of `views.py`; modelled from the spec
§3 and the keyword construction sites in `service.py`).  The source field
`is_partial` is spelled `isPartial` here. -/
structure TreeState where
  dom_info : Option DOMInfo
  interactive_nodes : List TreeElementNode
  scrollable_nodes : List ScrollElementNode
  dom_informative_nodes : List TextElementNode
  isPartial : Bool
  warnings : List Warning
deriving DecidableEq, Repr

/-- The numeric configuration knobs of `config.py` that `get_state` reads. -/
structure Config where
  tree_state_timeout_s : Int
  tree_state_timeout_dom_s : Int
  root_enum_timeout_s : Int
  uia_timeout_cooldown_s : Int
deriving DecidableEq, Repr

/-- A window handle owner (`App` of `desktop/views.py`; only the handle is
read by `get_state`). -/
structure App where
  handle : Nat
deriving DecidableEq, Repr

/-- One child of the provider's root control as `collect_targets` sees it:
its native window handle (`none` when reading it raises, which skips the
child) and its class name. -/
structure WChild where
  hwnd : Option Nat
  className : String
deriving DecidableEq, Repr

/-- Outcome of the bounded root-enumeration future: it timed out, raised,
or returned the root's children (which `collect_targets` then filters). -/
inductive RootFut where
  | timeout
  | err
  | ok (children : List WChild)
deriving DecidableEq, Repr

/-- The persistent state of the `Tree` object across calls: the breaker
timestamp `_uia_disabled_until` and the dom fields. -/
structure SvcState where
  uia_disabled_until : Int
  dom_info : Option DOMInfo
  dom_bounding_box : Option BoundingBox
deriving DecidableEq, Repr

/-- The external nondeterminism of one `get_state` call: the two monotonic
clock reads (`now` at the breaker check, `tripNow` at the breaker-trip
assignment), the outcomes of the root-enumeration and fallback futures,
the environment flag for system-window exclusion with the excluded class
list (`EXCLUDED_APPS` lives in a source file not provided), and the join
schedule. -/
structure CallEnv where
  now : Int
  tripNow : Int
  rootFut : RootFut
  fallbackOk : Bool
  excludeSystemWindows : Bool
  excludedApps : List String
  joinEvs : List JoinEv

/-- `collect_targets` (inner function of `get_state`): keep root children
whose handle is readable, not a known background window, not the desktop
(`Progman`) when an active app exists, and not an excluded system window
when so configured. -/
def collect_targets (children : List WChild) (otherHandles : List Nat)
    (hasActive : Bool) (excludeSystem : Bool) (excludedApps : List String) :
    List WChild :=
  children.filter (fun c =>
    match c.hwnd with
    | none => false
    | some h =>
      decide (¬ h ∈ otherHandles) && !(hasActive && decide (c.className = "Progman"))
        && !(excludeSystem && decide (c.className ∈ excludedApps)))

/-- Result of the root-enumeration phase of `get_state`. -/
structure RootPhase where
  st : SvcState
  rootPartial : Bool
  rootWarnings : List Warning
  targets : List WChild

/-- The root-enumeration phase: a timeout marks the call partial, records
its warning and trips the breaker via `max` with the previous timestamp;
an error marks it partial with its warning; success filters the children. -/
def rootPhase (cfg : Config) (st : SvcState) (active_app : Option App)
    (other_apps : List App) (use_dom : Bool) (env : CallEnv) : RootPhase :=
  let timeout_s := if use_dom then cfg.tree_state_timeout_dom_s else cfg.tree_state_timeout_s
  let root_timeout_s := min cfg.root_enum_timeout_s timeout_s
  match env.rootFut with
  | .timeout =>
    let tripped := max st.uia_disabled_until (env.tripNow + cfg.uia_timeout_cooldown_s)
    ⟨{ st with uia_disabled_until := tripped }, true, [.rootTimeout root_timeout_s], []⟩
  | .err => ⟨st, true, [.rootFailed], []⟩
  | .ok children =>
    ⟨st, false, [],
     collect_targets children (other_apps.map App.handle) active_app.isSome
       env.excludeSystemWindows env.excludedApps⟩

/-- The single-window fallback of `get_state`: when no targets were found
and an active app with a nonzero handle is known, resolve that one handle;
failure (including a timeout of the bounded wait) marks the call partial
with its warning.  Returns the root-partial flag, the root warnings and
the number of window jobs to submit. -/
def fallbackPhase (rp : RootPhase) (active_app : Option App) (env : CallEnv) :
    Bool × List Warning × Nat :=
  if rp.targets.isEmpty && (match active_app with
      | some a => a.handle != 0
      | none => false) then
    if env.fallbackOk then (rp.rootPartial, rp.rootWarnings, 1)
    else (true, rp.rootWarnings ++ [.fallbackFailed], 0)
  else (rp.rootPartial, rp.rootWarnings, rp.targets.length)

/-- The snapshot the breaker short-circuit returns: empty lists, explicit
`dom_info=None`, partial, and the warning citing the remaining cooldown. -/
def shortCircuitState (remaining : Int) : TreeState :=
  ⟨none, [], [], [], true, [.uiaDisabled remaining]⟩

/-- Everything `get_state` does after the breaker check: root enumeration,
optional fallback, fan-out/join, and snapshot assembly.  The snapshot's
`dom_info` is the `Tree` object's field after the join, its partial flag
the OR of the join and root signals, its warnings the join warnings
followed by the root warnings. -/
def get_state_enum (cfg : Config) (st : SvcState) (active_app : Option App)
    (other_apps : List App) (use_dom : Bool) (env : CallEnv) : SvcState × TreeState :=
  let timeout_s := if use_dom then cfg.tree_state_timeout_dom_s else cfg.tree_state_timeout_s
  let rp := rootPhase cfg st active_app other_apps use_dom env
  let fb := fallbackPhase rp active_app env
  let js := get_appwise_nodes timeout_s fb.2.2 rp.st.dom_info rp.st.dom_bounding_box env.joinEvs
  ({ rp.st with dom_info := js.dom_info, dom_bounding_box := js.dom_bounding_box },
   ⟨js.dom_info, js.interactive_nodes, js.scrollable_nodes, js.dom_informative_nodes,
    js.isPartial || fb.1, js.warnings ++ fb.2.1⟩)

/-- `Tree.get_state`: the breaker short-circuit (returning immediately,
touching neither the provider nor the persistent state, when the cooldown
has not elapsed), else the enumeration path. -/
def get_state (cfg : Config) (st : SvcState) (active_app : Option App)
    (other_apps : List App) (use_dom : Bool) (env : CallEnv) : SvcState × TreeState :=
  if env.now < st.uia_disabled_until then
    (st, shortCircuitState (st.uia_disabled_until - env.now))
  else get_state_enum cfg st active_app other_apps use_dom env

/-- The box invariant of spec §3/§8: width and height are the side
differences, and the box is either exactly the all-zero box or
non-degenerate and contained in the screen rectangle. -/
def BoxInvGeneral (screen b : BoundingBox) : Prop :=
  b.width = b.right - b.left ∧ b.height = b.bottom - b.top ∧
    (b = zeroBox ∨
      (b.left < b.right ∧ b.top < b.bottom ∧ screen.left ≤ b.left ∧ screen.top ≤ b.top
        ∧ b.right ≤ screen.right ∧ b.bottom ≤ screen.bottom))

/-- Traversal-state invariant for the geometry claims: every accumulated
interactive box satisfies `BoxInvGeneral` and every scrollable box carries
the width/height side differences of its rectangle. -/
def GoodState (screen : BoundingBox) (st : TravState) : Prop :=
  (∀ e ∈ st.interactive_nodes, BoxInvGeneral screen e.bounding_box) ∧
  (∀ e ∈ st.dom_interactive_nodes, BoxInvGeneral screen e.bounding_box) ∧
  (∀ se ∈ st.scrollable_nodes,
    se.bounding_box.width = se.bounding_box.right - se.bounding_box.left ∧
    se.bounding_box.height = se.bounding_box.bottom - se.bounding_box.top)

/-- A 1920×1080 screen box as `Tree.__init__` builds it. -/
def screen1 : BoundingBox := ⟨0, 0, 1920, 1080, 1920, 1080⟩

/-- Default configuration values of `config.py`. -/
def cfg0 : Config := ⟨6, 10, 2, 15⟩

/-- Fresh service state: breaker clear, no dom fields captured. -/
def st0 : SvcState := ⟨0, none, none⟩

def zeroCenter : Center := ⟨0, 0⟩

/-- Concrete interactive element attributed to window job 0. -/
def eA : TreeElementNode :=
  ⟨"A", "Button", some "", "", zeroBox, "", zeroCenter, "App0", false⟩

/-- Concrete interactive element attributed to window job 1. -/
def eB : TreeElementNode :=
  ⟨"B", "Button", some "", "", zeroBox, "", zeroCenter, "App1", false⟩

/-- Result of window job 0: one interactive element. -/
def rA : JobResult := ⟨[eA], [], [], none⟩

/-- Result of window job 1: one interactive element. -/
def rB : JobResult := ⟨[eB], [], [], none⟩

/-- A visible, enabled button ("OK"): classified interactive. -/
def c2Button : Control :=
  Control.mk "OK" "ButtonControl" "" "button" "" "" false true false ⟨10, 10, 110, 40⟩
    (some true) (some false) (some ⟨"Press", some ""⟩) (some none) none false false none []

/-- An off-screen pane matching the skip rule, holding the button above. -/
def c2Skipped : Control :=
  Control.mk "A" "PaneControl" "X" "pane" "" "" true true false ⟨0, 0, 500, 500⟩
    (some true) (some false) none (some none) none false false none [c2Button]

/-- A window whose only child is the skipped pane. -/
def c2Window : Control :=
  Control.mk "Win" "WindowControl" "RootClass" "window" "" "" false true false ⟨0, 0, 800, 600⟩
    (some true) (some false) none (some none) none true false (some false) [c2Skipped]

/-- A vertically scrollable pane whose raw rectangle sticks out both sides
of the 1920×1080 screen. -/
def c6Window : Control :=
  Control.mk "Scrolly" "PaneControl" "C" "pane" "" "" false true false ⟨-50, -20, 3000, 500⟩
    (some true) (some false) none (some (some ⟨false, 0, true, 0⟩)) none false false
    (some false) []

/-- The scrollable element the traversal of `c6Window` produces: its
bounding box is the raw provider rectangle, unclipped. -/
def c6Scroll : ScrollElementNode :=
  ⟨"Scrolly", "Scrolly", "Pane", ⟨-50, -20, 3000, 500, 3050, 520⟩, ⟨1475, 240⟩, "",
   false, 0, true, 0, false⟩

/-- The job result of traversing `c6Window`. -/
def c6Res : JobResult := ⟨[], [c6Scroll], [], none⟩

/-- DOM scroll state captured from the document root below. -/
def c3DI : DOMInfo := ⟨false, 0, false, 0⟩

/-- Viewport box captured from the document root below. -/
def c3DB : BoundingBox := ⟨0, 0, 800, 600, 800, 600⟩

/-- A browser document root (`AutomationId = "RootWebArea"`). -/
def c3RootWeb : Control :=
  Control.mk "Doc" "PaneControl" "" "pane" "RootWebArea" "" false true false ⟨0, 0, 800, 600⟩
    (some true) (some false) none (some (some ⟨false, 0, false, 0⟩)) none false false none []

/-- A browser window holding the document root. -/
def c3Browser : Control :=
  Control.mk "Chrome" "PaneControl" "ChromeCls" "pane" "" "" false true false ⟨0, 0, 800, 600⟩
    (some true) (some false) none (some none) none false false (some true) [c3RootWeb]

/-- A plain (non-browser) window with no document root. -/
def c3Plain : Control :=
  Control.mk "Notepad" "PaneControl" "NotepadCls" "pane" "" "" false true false ⟨0, 0, 640, 480⟩
    (some true) (some false) none (some none) none false false (some false) []

/-- Job result of traversing the browser window on a fresh service state. -/
def c3R1 : JobResult := ⟨[], [], [], some (c3DI, c3DB)⟩

/-- Job result of traversing the plain window. -/
def c3R2 : JobResult := ⟨[], [], [], none⟩

/-- First call's environment: root enumeration finds the browser window,
whose job completes with `c3R1`. -/
def c3Env1 : CallEnv :=
  ⟨0, 0, .ok [⟨some 42, "ChromeCls"⟩], false, false, [], [.complete 0 c3R1]⟩

/-- Second call's environment: root enumeration finds the plain window,
whose job completes with `c3R2` (no document root encountered). -/
def c3Env2 : CallEnv :=
  ⟨0, 0, .ok [⟨some 43, "NotepadCls"⟩], false, false, [], [.complete 0 c3R2]⟩

/-- Service state carrying a previously captured DomInfo and viewport. -/
def c3St1 : SvcState := ⟨0, some c3DI, some c3DB⟩

/-- Environment of a call whose root enumeration times out at time 1. -/
def c4EnvT : CallEnv := ⟨1, 1, .timeout, false, false, [], []⟩

/-- Environment of a later call at time 10 (inside the cooldown). -/
def c4Env2 : CallEnv := ⟨10, 0, .err, false, false, [], []⟩

/-- Environment of a later call at time 16 (cooldown elapsed). -/
def c4Env3 : CallEnv := ⟨16, 0, .err, false, false, [], []⟩

/-- One failing attempt of job 0 with budget remaining. -/
def c5Fail : JoinEv := .fail 0 true

/-- A join state in which job 0 is outstanding and has already failed
twice. -/
def c5DropSt : JoinState := ⟨[0], [2], [], [], [], none, none, false, []⟩

/-- The initial join state for two submitted window jobs. -/
def c1Init : JoinState := ⟨[0, 1], [0, 0], [], [], [], none, none, false, []⟩

/-- A modal, on-screen window-type child. -/
def c8Modal : Control :=
  Control.mk "Dlg" "WindowControl" "D" "window" "" "" false true false ⟨0, 0, 100, 100⟩
    (some true) (some false) none (some none) (some true) true false none []

/-- Normal-mode traversal context of an 800×600 window. -/
def c8Ctx : TravCtx := ⟨screen1, false, ⟨0, 0, 800, 600⟩, "App"⟩

/-- Traversal state with two interactive elements already accumulated. -/
def c8St : TravState := ⟨[eA, eB], [], [], [], none, none, false⟩

/-- `c8St` after the modal rule clears the interactive buffer. -/
def c8StCleared : TravState := ⟨[], [], [], [], none, none, false⟩

/-- A node on which every fallible provider accessor raises. -/
def c7Node : Control :=
  Control.mk "N" "PaneControl" "" "pane" "" "" false true false ⟨0, 0, 10, 10⟩
    none none none none none false false none []

/-- Every box produced by `iou_bounding_box` satisfies the box invariant:
side differences recorded as width/height, and either the all-zero box or
a non-degenerate box inside the screen rectangle. -/
theorem iou_boxinv (screen : BoundingBox) (w e : Rect) :
    BoxInvGeneral screen (iou_bounding_box screen w e) := by
  unfold iou_bounding_box BoxInvGeneral
  split
  next h =>
    refine ⟨rfl, rfl, Or.inr ⟨h.1, h.2, ?_, ?_, ?_, ?_⟩⟩
    · exact le_max_left _ _
    · exact le_max_left _ _
    · exact min_le_left _ _
    · exact min_le_left _ _
  next => exact ⟨rfl, rfl, Or.inl rfl⟩

theorem iou_degenerate (screen : BoundingBox) (w e : Rect)
    (h : ¬ (iouRight screen w e > iouLeft screen w e
        ∧ iouBottom screen w e > iouTop screen w e)) :
    iou_bounding_box screen w e = zeroBox := by
  unfold iou_bounding_box
  exact if_neg h

theorem forall_mem_dropLast {α : Type _} {p : α → Prop} {l : List α}
    (h : ∀ x ∈ l, p x) : ∀ x ∈ l.dropLast, p x :=
  fun x hx => h x ((List.dropLast_sublist l).subset hx)

theorem foldlM_option_preserve {α σ : Type _} (P : σ → Prop) (f : σ → α → Option σ)
    (hf : ∀ s a s', P s → f s a = some s' → P s') :
    ∀ (l : List α) (s s' : σ), P s → l.foldlM f s = some s' → P s' := by
  intro l
  induction l with
  | nil =>
    intro s s' hP h
    simp only [List.foldlM_nil, pure, Option.some.injEq] at h
    exact h ▸ hP
  | cons a l ih =>
    intro s s' hP h
    rw [List.foldlM_cons] at h
    cases hfa : f s a with
    | none => rw [hfa] at h; exact absurd h (by simp [Bind.bind])
    | some s1 =>
      rw [hfa] at h
      simp only [Option.bind_eq_bind, Option.some_bind] at h
      exact ih s1 s' (hf s a s1 hP hfa) h

theorem scrollPhase_good {screen : BoundingBox} {ctx : TravCtx} {node : Control}
    {st st' : TravState} (hg : GoodState screen st)
    (h : scrollPhase ctx node st = some st') : GoodState screen st' := by
  unfold scrollPhase at h
  split at h
  · split at h
    · cases h
      obtain ⟨h1, h2, h3⟩ := hg
      refine ⟨h1, h2, ?_⟩
      intro se hse
      rw [List.mem_append] at hse
      rcases hse with hse | hse
      · exact h3 se hse
      · rw [List.mem_singleton] at hse
        subst hse
        exact ⟨rfl, rfl⟩
    · exact absurd h (by simp)
  · cases h; exact hg

theorem dom_correction_good {screen : BoundingBox} {fuel : Nat} {ctx : TravCtx}
    {node : Control} {st st' : TravState} (hctx : ctx.screen = screen)
    (hg : GoodState screen st)
    (h : dom_correction fuel ctx node st = some st') : GoodState screen st' := by
  obtain ⟨h1, h2, h3⟩ := hg
  unfold dom_correction at h
  split at h
  · cases h
    exact ⟨h1, forall_mem_dropLast h2, h3⟩
  · split at h
    · -- group branch
      split at h
      · -- keyboard focusable: match on chainDescend
        split at h
        · cases h; exact ⟨h1, forall_mem_dropLast h2, h3⟩
        · -- some leaf
          split at h
          · cases h; exact ⟨h1, forall_mem_dropLast h2, h3⟩
          · split at h
            · exact absurd h (by simp)
            · split at h
              · exact absurd h (by simp)
              · cases h
                refine ⟨h1, ?_, h3⟩
                intro x hx
                rw [List.mem_append] at hx
                rcases hx with hx | hx
                · exact forall_mem_dropLast h2 x hx
                · rw [List.mem_singleton] at hx
                  subst hx
                  exact hctx ▸ iou_boxinv _ _ _
      · cases h; exact ⟨h1, forall_mem_dropLast h2, h3⟩
    · split at h
      · -- link-wrapping-heading branch
        split at h
        · exact absurd h (by simp)
        · split at h
          · exact absurd h (by simp)
          · split at h
            · exact absurd h (by simp)
            · cases h
              refine ⟨h1, ?_, h3⟩
              intro x hx
              rw [List.mem_append] at hx
              rcases hx with hx | hx
              · exact forall_mem_dropLast h2 x hx
              · rw [List.mem_singleton] at hx
                subst hx
                exact hctx ▸ iou_boxinv _ _ _
      · cases h; exact ⟨h1, h2, h3⟩

theorem interactPhase_good {screen : BoundingBox} {fuel : Nat} {ctx : TravCtx}
    {node : Control} {is_dom : Bool} {st st' : TravState} (hctx : ctx.screen = screen)
    (hg : GoodState screen st)
    (h : interactPhase fuel ctx node is_dom st = some st') : GoodState screen st' := by
  obtain ⟨h1, h2, h3⟩ := hg
  unfold interactPhase at h
  split at h
  · split at h
    · exact absurd h (by simp)
    · split at h
      · -- browser document mode: append to dom buffer then dom_correction
        split at h
        · exact absurd h (by simp)
        · dsimp only at h
          refine dom_correction_good hctx ?_ h
          refine ⟨h1, ?_, h3⟩
          intro x hx
          rw [List.mem_append] at hx
          rcases hx with hx | hx
          · exact h2 x hx
          · rw [List.mem_singleton] at hx
            subst hx
            exact hctx ▸ iou_boxinv _ _ _
      · -- normal mode: append to the interactive buffer
        cases h
        refine ⟨?_, h2, h3⟩
        intro x hx
        rw [List.mem_append] at hx
        rcases hx with hx | hx
        · exact h1 x hx
        · rw [List.mem_singleton] at hx
          subst hx
          exact hctx ▸ iou_boxinv _ _ _
  · split at h
    · cases h; exact ⟨h1, h2, h3⟩
    · cases h; exact ⟨h1, h2, h3⟩

theorem classifyPhase_good {screen : BoundingBox} {fuel : Nat} {ctx : TravCtx}
    {node : Control} {is_dom : Bool} {st st' : TravState} (hctx : ctx.screen = screen)
    (hg : GoodState screen st)
    (h : classifyPhase fuel ctx node is_dom st = some st') : GoodState screen st' := by
  unfold classifyPhase at h
  cases hs : scrollPhase ctx node st with
  | none => rw [hs] at h; exact absurd h (by simp)
  | some st1 =>
    rw [hs] at h
    simp only [Option.bind_eq_bind, Option.some_bind] at h
    exact interactPhase_good hctx (scrollPhase_good hg hs) h

theorem windowClear_good {screen : BoundingBox} {is_dom : Bool} {st st1 : TravState}
    {child : Control} (hg : GoodState screen st)
    (h : windowClear is_dom st child = some st1) : GoodState screen st1 := by
  obtain ⟨h1, h2, h3⟩ := hg
  unfold windowClear at h
  split at h
  · split at h
    · split at h
      · exact absurd h (by simp)
      · cases h
        split
        · exact ⟨h1, fun x hx => absurd hx (List.not_mem_nil x), h3⟩
        · exact ⟨h1, h2, h3⟩
    · cases h
      split
      · exact ⟨fun x hx => absurd hx (List.not_mem_nil x), h2, h3⟩
      · exact ⟨h1, h2, h3⟩
  · cases h; exact ⟨h1, h2, h3⟩

theorem childStep_good {screen : BoundingBox}
    {rec : TravCtx → Control → Bool → Bool → TravState → Option TravState}
    (hrec : ∀ ctx n d g st st', ctx.screen = screen → GoodState screen st →
      rec ctx n d g st = some st' → GoodState screen st')
    {ctx : TravCtx} (hctx : ctx.screen = screen) {d g : Bool} {st : TravState}
    {c : Control} {st' : TravState} (hg : GoodState screen st)
    (h : childStep rec ctx d g st c = some st') : GoodState screen st' := by
  unfold childStep at h
  split at h
  · split at h
    · dsimp only at h
      refine hrec _ _ _ _ _ _ hctx ?_ h
      exact ⟨hg.1, hg.2.1, hg.2.2⟩
    · exact absurd h (by simp)
  · split at h
    · split at h
      · exact absurd h (by simp)
      next st1 hclear =>
        exact hrec _ _ _ _ _ _ hctx (windowClear_good hg hclear) h
    · exact hrec _ _ _ _ _ _ hctx hg h

theorem travNode_good {screen : BoundingBox} :
    ∀ (fuel : Nat) (ctx : TravCtx) (n : Control) (d g : Bool) (st st' : TravState),
      ctx.screen = screen → GoodState screen st →
      travNode fuel ctx n d g st = some st' → GoodState screen st' := by
  intro fuel
  induction fuel with
  | zero => intro ctx n d g st st' _ _ h; exact absurd h (by simp [travNode])
  | succ fuel ih =>
    intro ctx n d g st st' hctx hg h
    rw [travNode] at h
    split at h
    · cases h; exact hg
    · split at h
      · exact absurd h (by simp)
      next st1 hcl =>
        exact foldlM_option_preserve (GoodState screen) _
          (fun s a s'' hP hfa =>
            childStep_good (fun ctx' n' d' g' t t' hc hgood hh => ih ctx' n' d' g' t t' hc hgood hh)
              hctx hP hfa)
          _ st1 st' (classifyPhase_good hctx hg hcl) h

/-- C6 (amended): in every window-job result, each interactive element's
bounding box records width/height as its side differences and is either
the all-zero box (a degenerate intersection collapses to it, never a
negative box) or non-degenerate and fully inside the screen rectangle;
each scrollable element's box records width/height as its side
differences — but, being the raw provider rectangle, a scrollable box is
not clipped to the screen. -/
theorem C6_theorem (screen : BoundingBox) (fuel : Nat) (dom0 : Option DOMInfo)
    (domBox0 : Option BoundingBox) (node : Control) (use_dom : Bool) (res : JobResult)
    (h : get_nodes screen fuel dom0 domBox0 node use_dom = some res) :
    (∀ e ∈ res.interactive, BoxInvGeneral screen e.bounding_box) ∧
    (∀ se ∈ res.scrollable,
      se.bounding_box.width = se.bounding_box.right - se.bounding_box.left ∧
      se.bounding_box.height = se.bounding_box.bottom - se.bounding_box.top) := by
  unfold get_nodes at h
  dsimp only at h
  split at h
  · exact absurd h (by simp)
  next st ht =>
    have hgood : GoodState screen st :=
      travNode_good fuel _ node false false _ st rfl
        ⟨fun x hx => absurd hx (List.not_mem_nil x),
         fun x hx => absurd hx (List.not_mem_nil x),
         fun x hx => absurd hx (List.not_mem_nil x)⟩ ht
    obtain ⟨hi, hd, hs⟩ := hgood
    split at h
    · split at h
      · cases h
        exact ⟨hd, hs⟩
      · cases h
        exact ⟨fun x hx => absurd hx (List.not_mem_nil x),
               fun x hx => absurd hx (List.not_mem_nil x)⟩
    · cases h
      refine ⟨?_, hs⟩
      intro x hx
      rw [List.mem_append] at hx
      rcases hx with hx | hx
      · exact hi x hx
      · exact hd x hx

/-- C6 counterexample: the claim as stated is false — traversing
`c6Window` yields a scrollable element whose bounding box is the raw
provider rectangle, non-degenerate yet reaching x=3000 on a 1920-pixel
screen, so not every non-degenerate box in the snapshot lies within the
screen rectangle. -/
theorem C6_counterexample :
    get_nodes screen1 10 none none c6Window false = some c6Res ∧
    c6Res.scrollable = [c6Scroll] ∧
    c6Scroll.bounding_box.left < c6Scroll.bounding_box.right ∧
    c6Scroll.bounding_box.top < c6Scroll.bounding_box.bottom ∧
    ¬ c6Scroll.bounding_box.right ≤ screen1.right := by
  exact ⟨by decide, by decide, by decide, by decide, by decide⟩

/-- C6 witness: the amended theorem applied to the concrete window
`c6Window`, instantiated at its scrollable element. -/
theorem C6_witness :
    c6Scroll.bounding_box.width = c6Scroll.bounding_box.right - c6Scroll.bounding_box.left ∧
    c6Scroll.bounding_box.height = c6Scroll.bounding_box.bottom - c6Scroll.bounding_box.top :=
  (C6_theorem screen1 10 none none c6Window false c6Res (by decide)).2
    c6Scroll (by decide)

/-- C2 (amended): the skip rule prunes the whole subtree — a node that is
off-screen with a control type outside {Group, Edit, TitleBar} and a
native class outside {Popup, core-input-source} is neither classified nor
are any of its descendants visited: the traversal returns the state
unchanged. -/
theorem C2_theorem (fuel : Nat) (ctx : TravCtx) (node : Control) (is_dom is_dialog : Bool)
    (st : TravState) (h1 : node.isOffscreen = true)
    (h2 : node.controlTypeName ∉ ["GroupControl", "EditControl", "TitleBarControl"])
    (h3 : node.className ∉ ["Popup", "Windows.UI.Core.CoreComponentInputSource"]) :
    travNode (fuel + 1) ctx node is_dom is_dialog st = some st := by
  rw [travNode]
  exact if_pos ⟨h1, h2, h3⟩

/-- C2 counterexample: the claim as stated is false — `c2Button` is a
visible, enabled button (classified interactive) sitting below the
skipped off-screen pane `c2Skipped`, yet the window's snapshot contains
no interactive element at all: the skipped node's descendants were never
visited. -/
theorem C2_counterexample :
    is_element_interactive false c2Button = true ∧
    get_nodes screen1 10 none none c2Window false = some ⟨[], [], [], none⟩ := by
  exact ⟨by decide, by decide⟩

/-- C2 witness: the amended theorem applied to the concrete skipped pane. -/
theorem C2_witness :
    travNode 4 c8Ctx c2Skipped false false c8St = some c8St :=
  C2_theorem 3 c8Ctx c2Skipped false false c8St (by decide) (by decide) (by decide)

/-- C7: the classifiers fail closed.  On a node whose fallible provider
accessors all raise (`none` fields) — and whose control type is not one of
the five types for which keyboard focus is asserted without consulting the
provider — the node is treated as not enabled, not keyboard-focusable, not
scrollable and (for either browser flag) not interactive; no error leaves
the classification functions, each returns a plain boolean. -/
theorem C7_theorem (b : Bool) (node : Control)
    (he : node.isEnabled = none) (hk : node.isKeyboardFocusableRaw = none)
    (hl : node.legacy = none) (hs : node.scrollPattern = none)
    (ht : node.controlTypeName ∉
      ["EditControl", "ButtonControl", "CheckBoxControl", "RadioButtonControl",
       "TabItemControl"]) :
    is_element_enabled node = false ∧ is_keyboard_focusable node = false ∧
    is_element_scrollable node = false ∧ is_element_interactive b node = false := by
  have hen : is_element_enabled node = false := by
    unfold is_element_enabled; rw [he]; rfl
  have hfoc : is_keyboard_focusable node = false := by
    unfold is_keyboard_focusable; rw [if_neg ht, hk]; rfl
  refine ⟨hen, hfoc, ?_, ?_⟩
  · unfold is_element_scrollable is_element_scrollableCore
    rw [hs]
    split
    · rfl
    · rfl
  · unfold is_element_interactive is_element_interactiveCore
    split
    · rfl
    · split
      next hcond =>
        exact absurd hcond.2.2 (by rw [hfoc]; exact Bool.false_ne_true)
      · split
        · cases himg : is_element_imageCore node with
          | none => rfl
          | some img => simp [hen]
        · split
          · split
            · unfold is_default_actionCore
              rw [hl]
              rfl
            · rfl
          · rfl

/-- C7 witness: the theorem applied (for both browser flags) to the
concrete all-raising node `c7Node`. -/
theorem C7_witness :
    is_element_enabled c7Node = false ∧ is_keyboard_focusable c7Node = false ∧
    is_element_scrollable c7Node = false ∧ is_element_interactive true c7Node = false ∧
    is_element_interactive false c7Node = false := by
  have h1 := C7_theorem true c7Node rfl rfl rfl rfl (by decide)
  have h2 := C7_theorem false c7Node rfl rfl rfl rfl (by decide)
  exact ⟨h1.1, h1.2.1, h1.2.2.1, h1.2.2.2, h2.2.2.2⟩

/-- C8: on an on-screen window-type child (that is not the browser's
document root), document mode clears the dom-interactive buffer exactly
when the child's rectangle is wider than 80% (the exact ratio 4/5) of the
captured viewport, normal mode clears the interactive buffer exactly when
the child reports itself modal, and in every case — cleared or not,
on-screen or not — the traversal recurses into the child's subtree (with
the dialog flag set). -/
theorem C8_theorem (rec : TravCtx → Control → Bool → Bool → TravState → Option TravState)
    (ctx : TravCtx) (is_dialog : Bool) (st : TravState) (child : Control)
    (hw : child.isWindowControl = true)
    (hnr : ¬ (ctx.is_browser = true ∧ child.automationId = "RootWebArea")) :
    (∀ db : BoundingBox, st.dom_bounding_box = some db → child.isOffscreen = false →
      childStep rec ctx true is_dialog st child =
        rec ctx child true true
          (if 5 * child.boundingRectangle.width > 4 * db.width then
            { st with dom_interactive_nodes := [] }
          else st)) ∧
    (child.isOffscreen = false →
      childStep rec ctx false is_dialog st child =
        rec ctx child false true
          (if is_window_modal child then { st with interactive_nodes := [] } else st)) ∧
    (∀ d : Bool, child.isOffscreen = true →
      childStep rec ctx d is_dialog st child = rec ctx child d true st) := by
  refine ⟨?_, ?_, ?_⟩
  · intro db hdb hoff
    unfold childStep windowClear
    rw [if_neg hnr, if_pos hw, if_pos hoff, if_pos rfl, hdb]
  · intro hoff
    unfold childStep windowClear
    rw [if_neg hnr, if_pos hw, if_pos hoff, if_neg (by simp)]
  · intro d hoff
    unfold childStep windowClear
    rw [if_neg hnr, if_pos hw, if_neg (by simp [hoff])]

/-- C8 witness: the theorem applied to the concrete modal dialog
`c8Modal` in normal mode, wiping the two accumulated interactive elements
before recursing into the dialog's subtree (spec §8's scenario). -/
theorem C8_witness :
    childStep (travNode 5) c8Ctx false false c8St c8Modal =
      travNode 5 c8Ctx c8Modal false true c8StCleared := by
  rw [(C8_theorem (travNode 5) c8Ctx false c8St c8Modal (by decide) (by decide)).2.1
    (by decide)]
  rfl

theorem joinRun_flag_iff (t : Int) :
    ∀ (evs : List JoinEv) (s : JoinState),
      (s.isPartial = true ↔ s.warnings ≠ []) →
      ((joinRun t s evs).isPartial = true ↔ (joinRun t s evs).warnings ≠ []) := by
  intro evs
  induction evs with
  | nil => intro s h; exact h
  | cons e es ih =>
    intro s h
    rw [joinRun]
    split
    · exact h
    · cases e with
      | deadlineHit => simp [joinStop, joinStep]
      | roundTimeout => simp [joinStop, joinStep]
      | complete j r =>
        show (joinRun t (joinStep t s (.complete j r)) es).isPartial = true ↔
          (joinRun t (joinStep t s (.complete j r)) es).warnings ≠ []
        refine ih _ ?_
        simp only [joinStep]
        split
        · exact h
        · exact h
      | fail j b =>
        show (joinRun t (joinStep t s (.fail j b)) es).isPartial = true ↔
          (joinRun t (joinStep t s (.fail j b)) es).warnings ≠ []
        refine ih _ ?_
        simp only [joinStep]
        split
        · split
          · exact h
          · simp
        · exact h

theorem joinRun_dom_info (t : Int) :
    ∀ (evs : List JoinEv) (s : JoinState), (∀ e ∈ evs, domFreeEv e) →
      (joinRun t s evs).dom_info = s.dom_info := by
  intro evs
  induction evs with
  | nil => intro s _; rfl
  | cons e es ih =>
    intro s hfree
    have hnext : ∀ x ∈ es, domFreeEv x := fun x hx => hfree x (List.mem_cons_of_mem _ hx)
    rw [joinRun]
    split
    · rfl
    · cases e with
      | deadlineHit => rfl
      | roundTimeout => rfl
      | complete j r =>
        have hd : r.domUpd = none := hfree _ (List.mem_cons_self _ _)
        show (joinRun t (joinStep t s (.complete j r)) es).dom_info = s.dom_info
        rw [ih _ hnext]
        simp only [joinStep]
        split
        · simp only [hd]
        · rfl
      | fail j b =>
        show (joinRun t (joinStep t s (.fail j b)) es).dom_info = s.dom_info
        rw [ih _ hnext]
        simp only [joinStep]
        split
        · split <;> rfl
        · rfl

theorem rootPhase_flag_iff (cfg : Config) (st : SvcState) (a : Option App)
    (o : List App) (d : Bool) (env : CallEnv) :
    ((rootPhase cfg st a o d env).rootPartial = true ↔
      (rootPhase cfg st a o d env).rootWarnings ≠ []) := by
  unfold rootPhase
  cases env.rootFut <;> simp

theorem rootPhase_st_dom (cfg : Config) (st : SvcState) (a : Option App)
    (o : List App) (d : Bool) (env : CallEnv) :
    (rootPhase cfg st a o d env).st.dom_info = st.dom_info ∧
    (rootPhase cfg st a o d env).st.dom_bounding_box = st.dom_bounding_box := by
  unfold rootPhase
  cases env.rootFut <;> simp

theorem fallbackPhase_flag_iff (rp : RootPhase) (active : Option App) (env : CallEnv)
    (h : rp.rootPartial = true ↔ rp.rootWarnings ≠ []) :
    ((fallbackPhase rp active env).1 = true ↔ (fallbackPhase rp active env).2.1 ≠ []) := by
  unfold fallbackPhase
  split
  · split
    · exact h
    · simp
  · exact h

/-- C9: for every call, the snapshot is flagged partial exactly when its
warning list is non-empty — every degrading path (breaker short-circuit,
root-enumeration timeout or failure, fallback failure, a dropped job,
join-deadline exhaustion) records a warning together with the partial
flag, and no warning is recorded without it. -/
theorem C9_theorem (cfg : Config) (st : SvcState) (a : Option App) (o : List App)
    (d : Bool) (env : CallEnv) :
    ((get_state cfg st a o d env).2.isPartial = true) ↔
      ((get_state cfg st a o d env).2.warnings ≠ []) := by
  unfold get_state
  split
  · simp [shortCircuitState]
  · unfold get_state_enum get_appwise_nodes
    dsimp only
    rw [Bool.or_eq_true]
    rw [joinRun_flag_iff _ env.joinEvs _ (by simp),
      fallbackPhase_flag_iff _ a env (rootPhase_flag_iff cfg st a o d env)]
    simp only [ne_eq, List.append_eq_nil, not_and]
    tauto

/-- C1 (amended): the join concatenates window results in completion
order, not submission order — for any well-formed schedule, the merged
interactive list is the initial buffer followed by the interactive lists
of the successful completions in exactly the order the loop processed
them, so reversing the completion order of two jobs reverses their
relative order in the snapshot. -/
theorem C1_theorem (t : Int) (s : JoinState) (evs : List JoinEv)
    (h : JoinWF t s evs = true) :
    (joinRun t s evs).interactive_nodes = s.interactive_nodes ++ completionMerge evs := by
  induction evs generalizing s with
  | nil => simp [joinRun, completionMerge]
  | cons e es ih =>
    simp only [JoinWF] at h
    by_cases hp : s.pending = []
    · rw [if_pos hp] at h
      exact absurd h (by simp)
    · rw [if_neg hp] at h
      rw [joinRun, if_neg hp]
      cases e with
      | deadlineHit => simp [joinStop, joinStep, completionMerge]
      | roundTimeout => simp [joinStop, joinStep, completionMerge]
      | complete j r =>
        rw [Bool.and_eq_true, decide_eq_true_eq] at h
        obtain ⟨hj, hwf⟩ := h
        show (joinRun t (joinStep t s (.complete j r)) es).interactive_nodes =
          s.interactive_nodes ++ completionMerge (.complete j r :: es)
        rw [ih _ hwf]
        simp only [joinStep, if_pos hj, completionMerge, List.append_assoc]
      | fail j b =>
        rw [Bool.and_eq_true, decide_eq_true_eq] at h
        obtain ⟨hj, hwf⟩ := h
        show (joinRun t (joinStep t s (.fail j b)) es).interactive_nodes =
          s.interactive_nodes ++ completionMerge (.fail j b :: es)
        rw [ih _ hwf]
        simp only [joinStep, if_pos hj, completionMerge]
        split <;> rfl

/-- C1 counterexample: the claim as stated is false — with job 0 (result
`eA`) submitted before job 1 (result `eB`), the schedule in which job 1
completes first merges to `[eB, eA]`, while the reversed completion order
merges to `[eA, eB]`: reversing completion order does change the relative
order, and submission order is not what the snapshot follows. -/
theorem C1_counterexample :
    (joinRun 6 c1Init [.complete 1 rB, .complete 0 rA]).interactive_nodes = [eB, eA] ∧
    (joinRun 6 c1Init [.complete 0 rA, .complete 1 rB]).interactive_nodes = [eA, eB] ∧
    ([eB, eA] : List TreeElementNode) ≠ [eA, eB] := by
  exact ⟨by decide, by decide, by decide⟩

/-- C1 witness: the amended theorem applied to the concrete two-job
schedule in which job 1 completes before job 0. -/
theorem C1_witness :
    (joinRun 6 c1Init [.complete 1 rB, .complete 0 rA]).interactive_nodes =
      c1Init.interactive_nodes ++ completionMerge [.complete 1 rB, .complete 0 rA] :=
  C1_theorem 6 c1Init [.complete 1 rB, .complete 0 rA] (by decide)

/-- C5 (amended): a failing window job is resubmitted at most twice — a
failure increments the job's retry counter, and the job is resubmitted
exactly when the incremented counter is still below `THREAD_MAX_RETRIES`
(= 3, so at most three attempts in total) and budget remains; otherwise it
is dropped, the result is marked partial, and the recorded warning is the
constant `Warning.subtreeFailed`, built from no attribute of the failing
node. -/
theorem C5_theorem (t : Int) (s : JoinState) (j : Nat) (b : Bool) (hj : j ∈ s.pending) :
    joinStop (.fail j b) = false ∧
    (joinStep t s (.fail j b)).retry = s.retry.set j (s.retry.getD j 0 + 1) ∧
    (s.retry.getD j 0 + 1 < THREAD_MAX_RETRIES ∧ b = true →
      (joinStep t s (.fail j b)).pending = s.pending.erase j ++ [j] ∧
      (joinStep t s (.fail j b)).isPartial = s.isPartial ∧
      (joinStep t s (.fail j b)).warnings = s.warnings) ∧
    (THREAD_MAX_RETRIES ≤ s.retry.getD j 0 + 1 ∨ b = false →
      (joinStep t s (.fail j b)).pending = s.pending.erase j ∧
      (joinStep t s (.fail j b)).isPartial = true ∧
      (joinStep t s (.fail j b)).warnings = s.warnings ++ [Warning.subtreeFailed]) := by
  have hneg : THREAD_MAX_RETRIES ≤ s.retry.getD j 0 + 1 ∨ b = false →
      ¬ (s.retry.getD j 0 + 1 < THREAD_MAX_RETRIES ∧ b = true) := by
    rintro (h | h) hc
    · exact absurd hc.1 (not_lt.2 h)
    · rw [h] at hc
      exact absurd hc.2 (by simp)
  refine ⟨rfl, ?_, ?_, ?_⟩
  · simp only [joinStep, if_pos hj]
    split <;> rfl
  · intro hc
    simp only [joinStep, if_pos hj, if_pos hc]
    refine ⟨?_, ?_, ?_⟩ <;> trivial
  · intro hc
    simp only [joinStep, if_pos hj, if_neg (hneg hc)]
    refine ⟨?_, ?_, ?_⟩ <;> trivial

/-- C5 counterexample: the claim as stated is false — with unlimited
budget, job 0 is resubmitted after its first and second failures but is
dropped at its third failure (after only two resubmissions), with the
result marked partial; under the claim's bound of three resubmissions the
job would still be outstanding. -/
theorem C5_counterexample :
    (joinRun 6 ⟨[0], [0], [], [], [], none, none, false, []⟩ [c5Fail]).pending = [0] ∧
    (joinRun 6 ⟨[0], [0], [], [], [], none, none, false, []⟩ [c5Fail]).isPartial = false ∧
    (joinRun 6 ⟨[0], [0], [], [], [], none, none, false, []⟩ [c5Fail, c5Fail]).pending = [0] ∧
    (joinRun 6 ⟨[0], [0], [], [], [], none, none, false, []⟩
      [c5Fail, c5Fail, c5Fail]).pending = [] ∧
    (joinRun 6 ⟨[0], [0], [], [], [], none, none, false, []⟩
      [c5Fail, c5Fail, c5Fail]).isPartial = true ∧
    (joinRun 6 ⟨[0], [0], [], [], [], none, none, false, []⟩
      [c5Fail, c5Fail, c5Fail]).retry = [3] ∧
    (joinRun 6 ⟨[0], [0], [], [], [], none, none, false, []⟩
      [c5Fail, c5Fail, c5Fail]).warnings = [Warning.subtreeFailed] := by
  exact ⟨by decide, by decide, by decide, by decide, by decide, by decide, by decide⟩

/-- C5 witness: the amended theorem applied to a concrete state in which
job 0 has already failed twice: the third failure drops it. -/
theorem C5_witness :
    (joinStep 6 c5DropSt (.fail 0 true)).pending = [] ∧
    (joinStep 6 c5DropSt (.fail 0 true)).isPartial = true ∧
    (joinStep 6 c5DropSt (.fail 0 true)).warnings = [Warning.subtreeFailed] := by
  have h := (C5_theorem 6 c5DropSt 0 true (by decide)).2.2.2 (Or.inl (by decide))
  exact ⟨h.1, h.2.1, h.2.2⟩

theorem get_state_short (cfg : Config) (st : SvcState) (a : Option App) (o : List App)
    (d : Bool) (env : CallEnv) (h : env.now < st.uia_disabled_until) :
    get_state cfg st a o d env =
      (st, shortCircuitState (st.uia_disabled_until - env.now)) := by
  unfold get_state
  rw [if_pos h]

theorem get_state_open (cfg : Config) (st : SvcState) (a : Option App) (o : List App)
    (d : Bool) (env : CallEnv) (h : ¬ env.now < st.uia_disabled_until) :
    get_state cfg st a o d env = get_state_enum cfg st a o d env := by
  unfold get_state
  rw [if_neg h]

theorem get_state_enum_uia (cfg : Config) (st : SvcState) (a : Option App) (o : List App)
    (d : Bool) (env : CallEnv) :
    (get_state_enum cfg st a o d env).1.uia_disabled_until =
      (rootPhase cfg st a o d env).st.uia_disabled_until := rfl

theorem rootPhase_uia_timeout (cfg : Config) (st : SvcState) (a : Option App)
    (o : List App) (d : Bool) (env : CallEnv) (h : env.rootFut = .timeout) :
    (rootPhase cfg st a o d env).st.uia_disabled_until =
      max st.uia_disabled_until (env.tripNow + cfg.uia_timeout_cooldown_s) := by
  unfold rootPhase
  rw [h]

theorem rootPhase_uia_other (cfg : Config) (st : SvcState) (a : Option App)
    (o : List App) (d : Bool) (env : CallEnv) (h : env.rootFut ≠ .timeout) :
    (rootPhase cfg st a o d env).st.uia_disabled_until = st.uia_disabled_until := by
  unfold rootPhase
  cases henv : env.rootFut with
  | timeout => exact absurd henv h
  | err => rfl
  | ok children => rfl

/-- C3 (amended): besides the cooldown timer, the captured DomInfo and
viewport box also persist across calls — a later call that does not
short-circuit and whose window jobs encounter no browser document root
returns the service's previously stored DomInfo unchanged, both in its
snapshot and in the persistent state. -/
theorem C3_theorem (cfg : Config) (st : SvcState) (a : Option App) (o : List App)
    (d : Bool) (env : CallEnv)
    (hnb : ¬ env.now < st.uia_disabled_until)
    (hfree : ∀ e ∈ env.joinEvs, domFreeEv e) :
    ((get_state cfg st a o d env).2).dom_info = st.dom_info ∧
    ((get_state cfg st a o d env).1).dom_info = st.dom_info := by
  rw [get_state_open cfg st a o d env hnb]
  unfold get_state_enum get_appwise_nodes
  dsimp only
  rw [joinRun_dom_info _ env.joinEvs _ hfree]
  exact ⟨(rootPhase_st_dom cfg st a o d env).1, (rootPhase_st_dom cfg st a o d env).1⟩

/-- C3 counterexample: the claim as stated is false — call 1 traverses the
browser window `c3Browser` (whose job captures DomInfo `c3DI` and
viewport `c3DB`), and call 2 traverses only the plain window `c3Plain`
(no document root anywhere), yet call 2's snapshot still reports
`dom_info = some c3DI`: the DomInfo produced during one call does carry
over into the next call's snapshot. -/
theorem C3_counterexample :
    st0.dom_info = none ∧
    get_nodes screen1 10 none none c3Browser false = some c3R1 ∧
    c3R1.domUpd = some (c3DI, c3DB) ∧
    get_nodes screen1 10 (some c3DI) (some c3DB) c3Plain false = some c3R2 ∧
    c3R2.domUpd = none ∧
    ((get_state cfg0 (get_state cfg0 st0 (some ⟨7⟩) [] false c3Env1).1
        (some ⟨7⟩) [] false c3Env2).2).dom_info = some c3DI := by
  exact ⟨rfl, by decide, rfl, by decide, rfl, by decide⟩

/-- C3 witness: the amended theorem applied to a service state already
carrying `c3DI`, called on the plain window's environment. -/
theorem C3_witness :
    ((get_state cfg0 c3St1 (some ⟨7⟩) [] false c3Env2).2).dom_info = c3St1.dom_info ∧
    ((get_state cfg0 c3St1 (some ⟨7⟩) [] false c3Env2).1).dom_info = c3St1.dom_info :=
  C3_theorem cfg0 c3St1 (some ⟨7⟩) [] false c3Env2 (by decide) (by decide)

/-- C4: a root-enumeration timeout at time T (with prior breaker state not
beyond T+C) sets the breaker to exactly T+C; every later call at a time
below T+C returns, for any environment, the empty partial snapshot whose
single warning cites the remaining cooldown, with the service state
untouched — no provider interaction occurs, the result being a constant of
the state and clock alone; and every call at a time at or past T+C takes
the enumeration path again. -/
theorem C4_theorem (cfg : Config) (st : SvcState) (a : Option App) (o : List App)
    (d : Bool) (envT : CallEnv)
    (hroot : envT.rootFut = .timeout)
    (hnb : ¬ envT.now < st.uia_disabled_until)
    (hprev : st.uia_disabled_until ≤ envT.tripNow + cfg.uia_timeout_cooldown_s) :
    ((get_state cfg st a o d envT).1.uia_disabled_until =
      envT.tripNow + cfg.uia_timeout_cooldown_s) ∧
    (∀ (a2 : Option App) (o2 : List App) (d2 : Bool) (env2 : CallEnv),
      env2.now < envT.tripNow + cfg.uia_timeout_cooldown_s →
      get_state cfg (get_state cfg st a o d envT).1 a2 o2 d2 env2 =
        ((get_state cfg st a o d envT).1,
         shortCircuitState (envT.tripNow + cfg.uia_timeout_cooldown_s - env2.now))) ∧
    (∀ (a3 : Option App) (o3 : List App) (d3 : Bool) (env3 : CallEnv),
      envT.tripNow + cfg.uia_timeout_cooldown_s ≤ env3.now →
      get_state cfg (get_state cfg st a o d envT).1 a3 o3 d3 env3 =
        get_state_enum cfg (get_state cfg st a o d envT).1 a3 o3 d3 env3) := by
  have h1 : (get_state cfg st a o d envT).1.uia_disabled_until =
      envT.tripNow + cfg.uia_timeout_cooldown_s := by
    rw [get_state_open cfg st a o d envT hnb, get_state_enum_uia,
      rootPhase_uia_timeout cfg st a o d envT hroot]
    exact max_eq_right hprev
  refine ⟨h1, ?_, ?_⟩
  · intro a2 o2 d2 env2 hlt
    rw [get_state_short _ _ _ _ _ _ (by rw [h1]; exact hlt), h1]
  · intro a3 o3 d3 env3 hge
    exact get_state_open _ _ _ _ _ _ (by rw [h1]; exact not_lt.2 hge)

/-- C4 witness: the theorem applied to the concrete timed-out call at
time 1 with the default 15-second cooldown: the breaker reads 16, a call
at time 10 short-circuits with 6 seconds of cooldown cited, a call at
time 16 enumerates again. -/
theorem C4_witness :
    (get_state cfg0 st0 none [] false c4EnvT).1.uia_disabled_until = 16 ∧
    get_state cfg0 (get_state cfg0 st0 none [] false c4EnvT).1 none [] false c4Env2 =
      ((get_state cfg0 st0 none [] false c4EnvT).1, shortCircuitState 6) ∧
    get_state cfg0 (get_state cfg0 st0 none [] false c4EnvT).1 none [] false c4Env3 =
      get_state_enum cfg0 (get_state cfg0 st0 none [] false c4EnvT).1 none [] false c4Env3 := by
  have h := C4_theorem cfg0 st0 none [] false c4EnvT rfl (by decide) (by decide)
  exact ⟨h.1, h.2.1 none [] false c4Env2 (by decide), h.2.2 none [] false c4Env3 (by decide)⟩

/-- C10: the breaker timestamp never decreases; it changes only on the
root-enumeration-timeout path, and there exactly to the `max` of its
previous value and tripNow + cooldown; any call whose root enumeration
does not time out — whatever its join schedule, including per-window job
failures and deadline exhaustion — leaves the timestamp unchanged, and a
following call whose clock is at or past that unchanged timestamp takes
the enumeration path again. -/
theorem C10_theorem (cfg : Config) (st : SvcState) (a : Option App) (o : List App)
    (d : Bool) (env : CallEnv) :
    st.uia_disabled_until ≤ (get_state cfg st a o d env).1.uia_disabled_until ∧
    ((get_state cfg st a o d env).1.uia_disabled_until = st.uia_disabled_until ∨
      (env.rootFut = .timeout ∧ ¬ env.now < st.uia_disabled_until ∧
        (get_state cfg st a o d env).1.uia_disabled_until =
          max st.uia_disabled_until (env.tripNow + cfg.uia_timeout_cooldown_s))) ∧
    (env.rootFut ≠ .timeout →
      (get_state cfg st a o d env).1.uia_disabled_until = st.uia_disabled_until) ∧
    (env.rootFut ≠ .timeout → ¬ env.now < st.uia_disabled_until →
      ∀ (a2 : Option App) (o2 : List App) (d2 : Bool) (env2 : CallEnv),
        ¬ env2.now < (get_state cfg st a o d env).1.uia_disabled_until →
        get_state cfg (get_state cfg st a o d env).1 a2 o2 d2 env2 =
          get_state_enum cfg (get_state cfg st a o d env).1 a2 o2 d2 env2) := by
  by_cases hb : env.now < st.uia_disabled_until
  · rw [get_state_short cfg st a o d env hb]
    exact ⟨le_refl _, Or.inl rfl, fun _ => rfl,
      fun _ hnb => absurd hb hnb⟩
  · rw [get_state_open cfg st a o d env hb]
    by_cases hroot : env.rootFut = .timeout
    · have huia := rootPhase_uia_timeout cfg st a o d env hroot
      rw [get_state_enum_uia, huia]
      refine ⟨le_max_left _ _, Or.inr ⟨hroot, hb, rfl⟩, fun h => absurd hroot h, ?_⟩
      intro h _ _ _ _ _ _
      exact absurd hroot h
    · have huia := rootPhase_uia_other cfg st a o d env hroot
      rw [get_state_enum_uia, huia]
      refine ⟨le_refl _, Or.inl rfl, fun _ => rfl, ?_⟩
      intro _ _ a2 o2 d2 env2 hlt2
      exact get_state_open _ _ _ _ _ _ (by rw [get_state_enum_uia, huia]; exact hlt2)

/-- C10 witness: the theorem applied to a concrete call whose root
enumeration succeeds (so the breaker stays 0) and whose follow-up call at
time 0 enumerates again. -/
theorem C10_witness :
    st0.uia_disabled_until ≤
      (get_state cfg0 st0 (some ⟨7⟩) [] false c3Env2).1.uia_disabled_until ∧
    (get_state cfg0 st0 (some ⟨7⟩) [] false c3Env2).1.uia_disabled_until =
      st0.uia_disabled_until ∧
    get_state cfg0 (get_state cfg0 st0 (some ⟨7⟩) [] false c3Env2).1
        (some ⟨7⟩) [] false c3Env2 =
      get_state_enum cfg0 (get_state cfg0 st0 (some ⟨7⟩) [] false c3Env2).1
        (some ⟨7⟩) [] false c3Env2 := by
  have h := C10_theorem cfg0 st0 (some ⟨7⟩) [] false c3Env2
  exact ⟨h.1, h.2.2.1 (by decide), h.2.2.2 (by decide) (by decide)
    (some ⟨7⟩) [] false c3Env2 (by decide)⟩

end WindowsMCP
